import Mathlib

/-!
Verification development for the SecretManager repository.

The definitions below are a shallow embedding of the Python sources:

* `src/backend/crypts/password_to_hash.py` — SHA-256 based master-password
  hashing (`hash_with_salt_sha256`, `get_hash`).  `hashlib.sha256` is modelled
  by an executable SHA-256 (`sha256`) over byte lists.
* `src/backend/crypts/tools.py` — field cipher wrappers (`encrypt_string`,
  `decrypt_string`), parameterised over the `cryptography` library primitives
  (PBKDF2 key derivation and the Fernet token scheme), and the
  `hash_password` helper with its file/subprocess side effects modelled as an
  explicit effect trace.
* `src/backend/db_manager.py` — the sqlite storage layer, modelled as a pair
  of table states (committed snapshot and the connection's pending view).
* `src/backend/blueprints/api.py` and `api_master_password.py` — the flask
  routes, modelled as functions from a JSON-ish request to an HTTP status.
-/

namespace SecretManager

/-! ## Bytes, 32-bit words, SHA-256 (model of Python's `hashlib.sha256`) -/

/-- Truncate a natural number to 32 bits. -/
def trunc32 (n : Nat) : Nat := n % 4294967296

/-- 32-bit right rotation (input assumed < 2^32). -/
def rotr32 (r x : Nat) : Nat := trunc32 ((x >>> r) ||| (x <<< (32 - r)))

/-- 32-bit bitwise complement. -/
def not32 (x : Nat) : Nat := x ^^^ 4294967295

/-- The 64 SHA-256 round constants (decimal). -/
def sha256K : List Nat :=
  [1116352408, 1899447441, 3049323471, 3921009573, 961987163, 1508970993,
   2453635748, 2870763221, 3624381080, 310598401, 607225278, 1426881987,
   1925078388, 2162078206, 2614888103, 3248222580, 3835390401, 4022224774,
   264347078, 604807628, 770255983, 1249150122, 1555081692, 1996064986,
   2554220882, 2821834349, 2952996808, 3210313671, 3336571891, 3584528711,
   113926993, 338241895, 666307205, 773529912, 1294757372, 1396182291,
   1695183700, 1986661051, 2177026350, 2456956037, 2730485921, 2820302411,
   3259730800, 3345764771, 3516065817, 3600352804, 4094571909, 275423344,
   430227734, 506948616, 659060556, 883997877, 958139571, 1322822218,
   1537002063, 1747873779, 1955562222, 2024104815, 2227730452, 2361852424,
   2428436474, 2756734187, 3204031479, 3329325298]

/-- The initial SHA-256 hash state (decimal). -/
def sha256H0 : List Nat :=
  [1779033703, 3144134277, 1013904242, 2773480762,
   1359893119, 2600822924, 528734635, 1541459225]

/-- SHA-256 padding: append `0x80`, zeros, and the 64-bit big-endian bit length. -/
def sha256Pad (msg : List Nat) : List Nat :=
  let L := msg.length
  let padZeros := (55 + 64 - L % 64) % 64
  let lenBytes := (List.range 8).map (fun i => ((8 * L) >>> (8 * (7 - i))) % 256)
  msg ++ [128] ++ List.replicate padZeros 0 ++ lenBytes

/-- Big-endian interpretation of a byte list as one machine word. -/
def bytesToWord (b : List Nat) : Nat := b.foldl (fun acc x => acc * 256 + x) 0

/-- The 16 initial 32-bit words of a 64-byte block. -/
def blockWords (block : List Nat) : List Nat :=
  (List.range 16).map (fun i => bytesToWord ((block.drop (4 * i)).take 4))

/-- SHA-256 message-schedule sigma-0. -/
def smallSigma0 (x : Nat) : Nat := (rotr32 7 x) ^^^ (rotr32 18 x) ^^^ (x >>> 3)

/-- SHA-256 message-schedule sigma-1. -/
def smallSigma1 (x : Nat) : Nat := (rotr32 17 x) ^^^ (rotr32 19 x) ^^^ (x >>> 10)

/-- Extend the 16 block words to the 64-entry message schedule. -/
def extendWords (w16 : List Nat) : List Nat :=
  (List.range 48).foldl
    (fun w _ =>
      let n := w.length
      w ++ [trunc32 (w.getD (n - 16) 0 + smallSigma0 (w.getD (n - 15) 0) +
                     w.getD (n - 7) 0 + smallSigma1 (w.getD (n - 2) 0))])
    w16

/-- SHA-256 compression sigma-0. -/
def bigSigma0 (x : Nat) : Nat := (rotr32 2 x) ^^^ (rotr32 13 x) ^^^ (rotr32 22 x)

/-- SHA-256 compression sigma-1. -/
def bigSigma1 (x : Nat) : Nat := (rotr32 6 x) ^^^ (rotr32 11 x) ^^^ (rotr32 25 x)

/-- One SHA-256 compression round on the 8-word working state. -/
def sha256Round (st : List Nat) (kw : Nat × Nat) : List Nat :=
  match st with
  | [a, b, c, d, e, f, g, h] =>
    let t1 := trunc32 (h + bigSigma1 e + ((e &&& f) ^^^ (not32 e &&& g)) + kw.1 + kw.2)
    let t2 := trunc32 (bigSigma0 a + ((a &&& b) ^^^ (a &&& c) ^^^ (b &&& c)))
    [trunc32 (t1 + t2), a, b, c, trunc32 (d + t1), e, f, g]
  | s => s

/-- Process one 64-byte block into the running hash state. -/
def sha256Block (hv : List Nat) (block : List Nat) : List Nat :=
  let ws := extendWords (blockWords block)
  let st := (sha256K.zip ws).foldl sha256Round hv
  (hv.zip st).map (fun p => trunc32 (p.1 + p.2))

/-- SHA-256 of a byte list, as a 32-byte list. -/
def sha256 (msg : List Nat) : List Nat :=
  let padded := sha256Pad msg
  let blocks := (List.range (padded.length / 64)).map (fun i => (padded.drop (64 * i)).take 64)
  let hv := blocks.foldl sha256Block sha256H0
  hv.foldr (fun w acc => [(w >>> 24) % 256, (w >>> 16) % 256, (w >>> 8) % 256, w % 256] ++ acc) []

/-- Lower-case hexadecimal digit. -/
def hexDigit (n : Nat) : Char := if n < 10 then Char.ofNat (48 + n) else Char.ofNat (87 + n)

/-- Lower-case hex rendering of a byte list (Python's `hexdigest`). -/
def bytesToHex (bs : List Nat) : String :=
  String.mk (bs.foldr (fun b acc => hexDigit (b / 16) :: hexDigit (b % 16) :: acc) [])

/-- UTF-8 encoding of one character (model of Python's `str.encode('utf-8')`). -/
def utf8Char (c : Char) : List Nat :=
  let n := c.toNat
  if n < 128 then [n]
  else if n < 2048 then [192 ||| (n >>> 6), 128 ||| (n &&& 63)]
  else if n < 65536 then
    [224 ||| (n >>> 12), 128 ||| ((n >>> 6) &&& 63), 128 ||| (n &&& 63)]
  else
    [240 ||| (n >>> 18), 128 ||| ((n >>> 12) &&& 63), 128 ||| ((n >>> 6) &&& 63), 128 ||| (n &&& 63)]

/-- UTF-8 encoding of a string as a byte list. -/
def utf8Encode (s : String) : List Nat := (s.data.map utf8Char).flatten

/-! ## `src/backend/crypts/password_to_hash.py` -/

/-- The hard-coded salt `b"fake_salt_for_hash"` (ASCII bytes). -/
def fake_salt_for_hash : List Nat := utf8Encode "fake_salt_for_hash"

/-- `hash_with_salt_sha256(data, salt)`: returns `(salt, hexdigest)` where the
digest is `SHA256(salt || utf8(data))` (the two `update` calls concatenate). -/
def hash_with_salt_sha256 (data : String) (salt : List Nat) : List Nat × String :=
  (salt, bytesToHex (sha256 (salt ++ utf8Encode data)))

/-- `get_hash(password)`: hash with the constant salt, second component. -/
def get_hash (password : String) : String :=
  (hash_with_salt_sha256 password fake_salt_for_hash).2

/-! ## `src/backend/crypts/tools.py` — `hash_password`

`hash_password` writes the password to `input.txt`, runs
`os.system('password_to_hash.exe < input.txt > output.txt')`, reads the helper's
stdout back from `output.txt` and removes both files.  The side effects are
modelled as an explicit trace.  The helper executable is modelled by the
`__main__` block of `password_to_hash.py` (read a line, print
`hash_with_salt_sha256(password, b"fake_salt_for_hash")[1]`); `print` appends a
newline, and `file.read()` returns it, so the returned verifier string carries
a trailing newline. -/

/-- One file-system / process side effect performed by `hash_password`. -/
inductive Eff where
  | writeF (name content : String)
  | system (cmd : String)
  | readF (name : String)
  | removeF (name : String)

/-- The effect trace of `hash_password(password)`, in program order. -/
def hash_password_effects (password : String) : List Eff :=
  [Eff.writeF "input.txt" password,
   Eff.system "password_to_hash.exe < input.txt > output.txt",
   Eff.readF "output.txt",
   Eff.removeF "input.txt",
   Eff.removeF "output.txt"]

/-- The string value returned by `hash_password(password)`: the helper's stdout,
i.e. `get_hash(password)` followed by `print`'s newline. -/
def hash_password (password : String) : String := get_hash password ++ "\n"

/-- Is the effect an `os.system` shell invocation? -/
def Eff.isSystemCall : Eff → Bool
  | .system _ => true
  | _ => false

/-- Is the effect a write of a file (the temp file carrying the password)? -/
def Eff.isFileWrite : Eff → Bool
  | .writeF _ _ => true
  | _ => false

/-! ## `src/backend/crypts/tools.py` — field cipher

`encrypt_string` / `decrypt_string` wrap the `cryptography` library: PBKDF2
key derivation (`_derive_fernet_key`) and the Fernet authenticated token
scheme.  Those library primitives are not part of this repository; the
embedding is parameterised over them (`CipherPrims`), and the theorems take
the library's documented contract (round-trip, wrong-key authentication
failure, distinct keys for distinct passwords) as hypotheses.  The repository
code being verified is the salt-prefix blob format around them.
`os.urandom(SALT_SIZE)` is modelled by passing the random salt explicitly. -/

/-- The library primitives used by `tools.py`: `_derive_fernet_key`
(password, salt ↦ key) and `Fernet(key).encrypt` / `Fernet(key).decrypt`
(`none` models an `InvalidToken` exception). -/
structure CipherPrims where
  deriveKey : String → List Nat → List Nat
  fernetEnc : List Nat → String → List Nat
  fernetDec : List Nat → List Nat → Option String

/-- `SALT_SIZE = 16`. -/
def SALT_SIZE : Nat := 16

/-- `encrypt_string(password, plaintext)` with the fresh random salt made
explicit: `salt + Fernet(derive(password, salt)).encrypt(plaintext)`. -/
def encrypt_string (P : CipherPrims) (salt : List Nat) (password plaintext : String) : List Nat :=
  salt ++ P.fernetEnc (P.deriveKey password salt) plaintext

/-- The two failure modes of `decrypt_string`: `ValueError` on a short blob,
`InvalidToken` on an authentication failure. -/
inductive DecErr where
  | valueError
  | invalidToken
deriving DecidableEq

/-- `decrypt_string(password, blob)`: reject blobs shorter than the salt,
split `salt || token`, derive the key and attempt authenticated decryption. -/
def decrypt_string (P : CipherPrims) (password : String) (blob : List Nat) :
    Except DecErr String :=
  if blob.length < SALT_SIZE then .error .valueError
  else
    let salt := blob.take SALT_SIZE
    let token := blob.drop SALT_SIZE
    match P.fernetDec (P.deriveKey password salt) token with
    | some s => .ok s
    | none => .error .invalidToken

/-! ## `src/backend/db_manager.py`

The sqlite layer.  `DatabaseManager` is a process-wide singleton holding ONE
shared `sqlite3` connection (`check_same_thread=False`), so every reader sees
the connection's current view, including rows inserted in a not-yet-committed
transaction (`Tables` below is that view, `pending`); `commit` publishes it.
Python's `sqlite3` never issues `PRAGMA foreign_keys=ON` and the code does not
either, so sqlite's default (foreign-key enforcement OFF) applies and the
`ON DELETE CASCADE` clause declared in `create_tables` is not enforced at
runtime: `DELETE FROM secret_general` removes parent rows only. -/

/-- A row of `secret_general`. -/
structure SecretRow where
  id : Nat
  name : String
deriving DecidableEq

/-- A row of `secret_fields` (`value` holds the encrypted blob bytes). -/
structure FieldRow where
  id : Nat
  label : String
  value : List Nat
  secret_id : Nat
deriving DecidableEq

/-- The two tables plus the AUTOINCREMENT counters. -/
structure Tables where
  secret_general : List SecretRow
  secret_fields : List FieldRow
  next_secret_id : Nat
  next_field_id : Nat
deriving DecidableEq

/-- `create_tables`: fresh empty tables (AUTOINCREMENT starts at 1). -/
def create_tables : Tables :=
  { secret_general := [], secret_fields := [], next_secret_id := 1, next_field_id := 1 }

/-- The shared connection: the last committed snapshot and the connection's
current (possibly uncommitted) view.  All queries read `pending`, because every
component shares the one singleton connection. -/
structure DBConn where
  committed : Tables
  pending : Tables
deriving DecidableEq

/-- A freshly bootstrapped database (no prior file). -/
def freshConn : DBConn := { committed := create_tables, pending := create_tables }

/-- `self._connection.commit()`. -/
def commit (c : DBConn) : DBConn := { committed := c.pending, pending := c.pending }

/-- `get_secret_by_id`: first row of `SELECT id, name WHERE id = ?`, if any. -/
def get_secret_by_id (c : DBConn) (id_secret : Nat) : Option (Nat × String) :=
  match c.pending.secret_general.filter (fun r => r.id == id_secret) with
  | [] => none
  | r :: _ => some (r.id, r.name)

/-- `get_fields_of_secret`: `None` when the secret does not exist, and also —
as in the source's `if fields:` — when the field list is empty. -/
def get_fields_of_secret (c : DBConn) (id_secret : Nat) :
    Option (List (String × List Nat)) :=
  match get_secret_by_id c id_secret with
  | none => none
  | some s =>
    match c.pending.secret_fields.filter (fun f => f.secret_id == s.1) with
    | [] => none
    | fs => some (fs.map (fun f => (f.label, f.value)))

/-- Outcome of `create_secret`: `False` returned on a name conflict, `True` on
success, or an exception escaping from a failed field `INSERT`. -/
inductive CreateOutcome where
  | conflict
  | created
  | raised
deriving DecidableEq

/-- Insert one field row (`INSERT INTO secret_fields`). -/
def insert_field (t : Tables) (sid : Nat) (lab : String) (v : List Nat) : Tables :=
  { t with secret_fields := t.secret_fields ++ [⟨t.next_field_id, lab, v, sid⟩],
           next_field_id := t.next_field_id + 1 }

/-- The field-insertion loop of `create_secret`, starting at index `i`.
`failAt = some k` injects a failure of the `INSERT` of field `k` (the
exception the atomicity claim quantifies over); the loop stops there and the
exception propagates — the source has no rollback handler. -/
def insertFieldsFrom (t : Tables) (sid : Nat) (i : Nat)
    (data : List (String × List Nat)) (failAt : Option Nat) : Tables × Bool :=
  match data with
  | [] => (t, true)
  | (lab, v) :: rest =>
    if failAt == some i then (t, false)
    else insertFieldsFrom (insert_field t sid lab v) sid (i + 1) rest failAt

/-- `create_secret(name, data)`: return `False` if a row with this name exists;
otherwise insert the parent row, then each field row, then commit.  When a
field `INSERT` raises, no commit and no rollback happen: the partial rows stay
in the shared connection's open transaction (`pending`). -/
def create_secret (c : DBConn) (name : String) (data : List (String × List Nat))
    (failAt : Option Nat) : CreateOutcome × DBConn :=
  if (c.pending.secret_general.filter (fun r => r.name == name)).isEmpty then
    let sid := c.pending.next_secret_id
    let t1 : Tables := { c.pending with
      secret_general := c.pending.secret_general ++ [⟨sid, name⟩],
      next_secret_id := sid + 1 }
    let res := insertFieldsFrom t1 sid 0 data failAt
    if res.2 then (.created, commit { committed := c.committed, pending := res.1 })
    else (.raised, { committed := c.committed, pending := res.1 })
  else (.conflict, c)

/-- `delete_secret(id)`: `DELETE FROM secret_general WHERE id = ?` then commit.
Foreign-key enforcement is off (see the section comment), so `secret_fields`
rows are untouched. -/
def delete_secret (c : DBConn) (id_secret : Nat) : DBConn :=
  commit { committed := c.committed,
           pending := { c.pending with
             secret_general := c.pending.secret_general.filter (fun r => r.id != id_secret) } }

/-- Number of `secret_general` rows carrying a given name. -/
def countName (t : Tables) (name : String) : Nat :=
  (t.secret_general.filter (fun r => r.name == name)).length

/-- The `secret_fields` rows referencing a given secret id. -/
def fieldsReferencing (t : Tables) (id_secret : Nat) : List FieldRow :=
  t.secret_fields.filter (fun f => f.secret_id == id_secret)

/-! ## Master password and the flask routes

`src/backend/blueprints/api_master_password.py` and
`src/backend/blueprints/api.py`.  JSON values relevant to the routes'
`isinstance` checks are modelled by `JVal`; route results are the HTTP status
codes the source returns.  `check_exist_master_password` and
`compare_hash_password` are imported from `backend.crypts.tools` but are not
present under `src/`; they are modelled from the spec (see their doc
comments). -/

/-- A JSON value as far as the routes' `isinstance` checks observe it. -/
inductive JVal where
  | jint (n : Int)
  | jstr (s : String)
  | jother
deriving DecidableEq

/-- `isinstance(v, int)`. -/
def JVal.isInt : JVal → Bool
  | .jint _ => true
  | _ => false

/-- `isinstance(v, str)`. -/
def JVal.isStr : JVal → Bool
  | .jstr _ => true
  | _ => false

/-- The master-password record: the content of `data/master_password.txt`,
`none` while the file does not exist. -/
structure MasterState where
  file : Option String
deriving DecidableEq

/-- Modelled from the spec: `check_exist_master_password` is imported from
`backend.crypts.tools` but absent under `src/`.  Per §4.3, `exists()` is true
iff a MasterKeyRecord has been established, i.e. the verifier file exists. -/
def check_exist_master_password (st : MasterState) : Bool := st.file.isSome

/-- Modelled from the spec: `compare_hash_password` is imported from
`backend.crypts.tools` but absent under `src/`.  Per §4.3, `verify` recomputes
the verifier from the supplied password with the same one-way function used at
establishment (`hash_password`) and compares it with the stored verifier,
returning false on mismatch. -/
def compare_hash_password (st : MasterState) (password : String) : Bool :=
  st.file == some (hash_password password)

/-- `compare_hash_password` as called by the routes on a raw JSON value (the
inverted `isinstance` checks let non-string values through).  A non-string
value can never equal the stored verifier hash of any password, so it compares
false. -/
def compare_hash_password_j (st : MasterState) (v : JVal) : Bool :=
  match v with
  | .jstr s => compare_hash_password st s
  | _ => false

/-- `POST /set_master_password`: 400 on a malformed body, 400 if a master
password already exists (the AlreadySet outcome), else write
`hash_password(password)` to `data/master_password.txt` and answer 201. -/
def set_master_password (st : MasterState) (password : Option JVal) : Nat × MasterState :=
  match password with
  | some (JVal.jstr p) =>
    if check_exist_master_password st then (400, st)
    else (201, { file := some (hash_password p) })
  | _ => (400, st)

/-- The request body of `/get_secret` and `/delete_secret`. -/
structure SecretReq where
  id : Option JVal
  password : Option JVal

/-- The sqlite lookup `WHERE id = ?` with the raw JSON value as parameter:
only an integer parameter can match the INTEGER `id` column (sqlite compares
storage classes strictly), and ids are positive. -/
def get_secret_by_id_j (c : DBConn) (v : JVal) : Option (Nat × String) :=
  match v with
  | .jint n => if n < 0 then none else get_secret_by_id c n.toNat
  | _ => none

/-- `get_fields_of_secret` with the raw JSON value as id parameter. -/
def get_fields_of_secret_j (c : DBConn) (v : JVal) : Option (List (String × List Nat)) :=
  match v with
  | .jint n => if n < 0 then none else get_fields_of_secret c n.toNat
  | _ => none

/-- `POST /get_secret`, including the blueprint's `before_request` middleware
(500 when no master password exists).  The `isinstance` checks are transcribed
as written in the source: `if 'id' not in request.json or
isinstance(request.json['id'], int): abort(400)` aborts when the id IS an
integer, and likewise the password check aborts when the password IS a
string.  The final branch models the response loop, which subscripts the
`(label, value)` tuples returned by sqlite with string keys
(`field['label']`, and `fields['value']` on the list itself): an unconditional
`TypeError`, which flask surfaces as a 500. -/
def get_secret_route (ms : MasterState) (c : DBConn) (req : SecretReq) : Nat :=
  if check_exist_master_password ms then
    match req.id with
    | none => 400
    | some idv =>
      if idv.isInt then 400
      else
        match req.password with
        | none => 400
        | some pv =>
          if pv.isStr then 400
          else if compare_hash_password_j ms pv = false then 403
          else
            match get_fields_of_secret_j c idv with
            | none => 404
            | some _ => 500
  else 500

/-- `DELETE /delete_secret`, including the middleware, with the same inverted
`isinstance` checks as `/get_secret`, then: 403 on a failed password check,
404 when `get_secret_by_id` finds nothing, otherwise delete and answer 200. -/
def delete_secret_route (ms : MasterState) (c : DBConn) (req : SecretReq) : Nat × DBConn :=
  if check_exist_master_password ms then
    match req.id with
    | none => (400, c)
    | some idv =>
      if idv.isInt then (400, c)
      else
        match req.password with
        | none => (400, c)
        | some pv =>
          if pv.isStr then (400, c)
          else if compare_hash_password_j ms pv = false then (403, c)
          else
            match get_secret_by_id_j c idv with
            | none => (404, c)
            | some _ =>
              match idv with
              | .jint n => (200, delete_secret c n.toNat)
              | _ => (200, c)
  else (500, c)

/-! ## A concrete cipher instantiation

A small concrete `CipherPrims` used by the witnesses of the cipher theorems:
keys are the password's character codes, a token is the key length followed by
the key and the message's character codes, and decryption checks the embedded
key.  It satisfies the round-trip, authentication and key-distinctness
contracts the theorems assume of the real library. -/

/-- Character codes of a string. -/
def strBytes (s : String) : List Nat := s.data.map Char.toNat

/-- Partial inverse of `strBytes`. -/
def strOfBytes (l : List Nat) : String := String.mk (l.map Char.ofNat)

/-- The concrete primitives. -/
def toyPrims : CipherPrims where
  deriveKey := fun p _ => strBytes p
  fernetEnc := fun k m => k.length :: (k ++ strBytes m)
  fernetDec := fun k t =>
    match t with
    | [] => none
    | n :: rest =>
      if n = k.length ∧ rest.take k.length = k then some (strOfBytes (rest.drop k.length))
      else none

/-- A concrete 16-byte salt. -/
def salt16 : List Nat := List.replicate 16 7

/-! ## Helper lemmas -/

theorem strOfBytes_strBytes (s : String) : strOfBytes (strBytes s) = s := by
  cases s with
  | mk d =>
    simp only [strOfBytes, strBytes, List.map_map]
    congr 1
    exact List.map_id'' (fun c => Char.ofNat_toNat c) _

theorem strBytes_inj {p q : String} (h : strBytes p = strBytes q) : p = q := by
  have hchar : Function.Injective Char.toNat := by
    intro a b hab
    have := congrArg Char.ofNat hab
    rwa [Char.ofNat_toNat, Char.ofNat_toNat] at this
  have hd : p.data = q.data := List.map_injective_iff.mpr hchar h
  cases p
  cases q
  exact congrArg String.mk hd

/-- The concrete primitives satisfy the Fernet round-trip contract. -/
theorem toy_roundtrip (k : List Nat) (m : String) :
    toyPrims.fernetDec k (toyPrims.fernetEnc k m) = some m := by
  simp [toyPrims, List.take_left, List.drop_left, strOfBytes_strBytes]

/-- The concrete primitives satisfy the wrong-key authentication contract. -/
theorem toy_auth (k k' : List Nat) (hk : k ≠ k') (m : String) :
    toyPrims.fernetDec k' (toyPrims.fernetEnc k m) = none := by
  simp only [toyPrims]
  rw [if_neg]
  rintro ⟨h1, h2⟩
  apply hk
  rw [← h2, ← h1, List.take_left]

/-- The concrete key derivation maps distinct passwords to distinct keys. -/
theorem toy_keys_distinct (p q : String) (s : List Nat) (h : p ≠ q) :
    toyPrims.deriveKey p s ≠ toyPrims.deriveKey q s := by
  simpa [toyPrims] using fun hc => h (strBytes_inj hc)

theorem insertFieldsFrom_none_snd (data : List (String × List Nat)) :
    ∀ t sid i, (insertFieldsFrom t sid i data none).2 = true := by
  induction data with
  | nil => intro t sid i; rfl
  | cons hd tl ih =>
    intro t sid i
    obtain ⟨lab, v⟩ := hd
    simpa [insertFieldsFrom] using ih (insert_field t sid lab v) sid (i + 1)

theorem insertFieldsFrom_secret_general (data : List (String × List Nat)) (failAt : Option Nat) :
    ∀ t sid i, (insertFieldsFrom t sid i data failAt).1.secret_general = t.secret_general := by
  induction data with
  | nil => intro t sid i; rfl
  | cons hd tl ih =>
    intro t sid i
    obtain ⟨lab, v⟩ := hd
    by_cases hf : failAt == some i
    · simp [insertFieldsFrom, hf]
    · simp only [insertFieldsFrom, hf, if_false, Bool.false_eq_true]
      rw [ih (insert_field t sid lab v) sid (i + 1)]
      rfl

/-! ## Claim theorems -/

/-- C5.  Round-trip correctness of the field cipher: for every password `P`
and plaintext `V` (and every 16-byte random salt drawn by `encrypt_string`),
`decrypt_string P (encrypt_string P V)` returns exactly `V`, given the Fernet
library's round-trip contract. -/
theorem cipher_roundtrip (P : CipherPrims)
    (hRT : ∀ k m, P.fernetDec k (P.fernetEnc k m) = some m)
    (password plaintext : String) (salt : List Nat) (hs : salt.length = 16) :
    decrypt_string P password (encrypt_string P salt password plaintext) =
      Except.ok plaintext := by
  unfold decrypt_string encrypt_string SALT_SIZE
  rw [if_neg]
  · rw [← hs, List.take_left, List.drop_left]
    simp only [hRT]
  · rw [List.length_append, hs]
    omega

/-- C5 witness: the round-trip theorem applied to the concrete primitives at a
concrete password, plaintext and salt. -/
theorem cipher_roundtrip_witness :
    salt16.length = 16 ∧
    decrypt_string toyPrims "correct-horse" (encrypt_string toyPrims salt16 "correct-horse" "alice")
      = Except.ok "alice" :=
  ⟨by decide, cipher_roundtrip toyPrims toy_roundtrip "correct-horse" "alice" salt16 (by decide)⟩

/-- C6.  Authenticity of the field cipher: for distinct passwords `P1 ≠ P2`,
decrypting `encrypt_string P1 V` under `P2` yields the `InvalidToken`
authentication failure and never a plaintext, given the Fernet wrong-key
contract and distinctness of the derived keys. -/
theorem cipher_authenticity (P : CipherPrims)
    (hAuth : ∀ k k', k ≠ k' → ∀ m, P.fernetDec k' (P.fernetEnc k m) = none)
    (hKeys : ∀ p q s, p ≠ q → P.deriveKey p s ≠ P.deriveKey q s)
    (p1 p2 : String) (hp : p1 ≠ p2) (plaintext : String)
    (salt : List Nat) (hs : salt.length = 16) :
    decrypt_string P p2 (encrypt_string P salt p1 plaintext) =
      Except.error DecErr.invalidToken := by
  unfold decrypt_string encrypt_string SALT_SIZE
  rw [if_neg]
  · rw [← hs, List.take_left, List.drop_left]
    simp only [hAuth (P.deriveKey p1 salt) (P.deriveKey p2 salt) (hKeys p1 p2 salt hp) plaintext]
  · rw [List.length_append, hs]
    omega

/-- C6 witness: the authenticity theorem applied to the concrete primitives at
two concrete distinct passwords. -/
theorem cipher_authenticity_witness :
    ("correct-horse" : String) ≠ "wrong" ∧
    decrypt_string toyPrims "wrong" (encrypt_string toyPrims salt16 "correct-horse" "alice")
      = Except.error DecErr.invalidToken :=
  ⟨by decide,
   cipher_authenticity toyPrims toy_auth toy_keys_distinct "correct-horse" "wrong" (by decide)
     "alice" salt16 (by decide)⟩

/-- C7.  Name uniqueness: starting from any store with no row named `name`,
the first `create_secret` succeeds, exactly one row with that name persists,
and a second `create_secret` with the same name returns the conflict outcome
(`False`) and leaves the store unchanged. -/
theorem create_name_unique (c : DBConn) (name : String)
    (data data' : List (String × List Nat))
    (hfree : c.pending.secret_general.filter (fun r => r.name == name) = []) :
    (create_secret c name data none).1 = CreateOutcome.created ∧
    countName (create_secret c name data none).2.pending name = 1 ∧
    create_secret (create_secret c name data none).2 name data' none
      = (CreateOutcome.conflict, (create_secret c name data none).2) := by
  have hsg : ∀ cc : Tables,
      (insertFieldsFrom cc 0 0 data none).1.secret_general = cc.secret_general :=
    fun cc => insertFieldsFrom_secret_general data none cc 0 0
  constructor
  · simp [create_secret, hfree, insertFieldsFrom_none_snd]
  constructor
  · simp [create_secret, hfree, insertFieldsFrom_none_snd, countName, commit,
          insertFieldsFrom_secret_general, List.filter_append]
  · have hpend : (create_secret c name data none).2.pending.secret_general =
        c.pending.secret_general ++ [⟨c.pending.next_secret_id, name⟩] := by
      simp [create_secret, hfree, insertFieldsFrom_none_snd, commit,
            insertFieldsFrom_secret_general]
    have hcfl : ((create_secret c name data none).2.pending.secret_general.filter
        (fun r => r.name == name)).isEmpty = false := by
      rw [hpend, List.filter_append, hfree]
      simp
    have key : ∀ c1 : DBConn,
        ((c1.pending.secret_general.filter (fun r => r.name == name)).isEmpty = false) →
        create_secret c1 name data' none = (CreateOutcome.conflict, c1) := by
      intro c1 h1
      have hneg :
          ¬ ((c1.pending.secret_general.filter (fun r => r.name == name)).isEmpty = true) := by
        rw [h1]
        exact Bool.false_ne_true
      unfold create_secret
      exact if_neg hneg
    exact key _ hcfl

/-- C7 witness: the uniqueness theorem run from a freshly bootstrapped store
with the concrete name `"X"`. -/
theorem create_name_unique_witness :
    freshConn.pending.secret_general.filter (fun r => r.name == "X") = [] ∧
    (create_secret freshConn "X" [("l", [1])] none).1 = CreateOutcome.created ∧
    countName (create_secret freshConn "X" [("l", [1])] none).2.pending "X" = 1 ∧
    create_secret (create_secret freshConn "X" [("l", [1])] none).2 "X" [("m", [2])] none
      = (CreateOutcome.conflict, (create_secret freshConn "X" [("l", [1])] none).2) :=
  ⟨rfl,
   (create_name_unique freshConn "X" [("l", [1])] [("m", [2])] rfl).1,
   (create_name_unique freshConn "X" [("l", [1])] [("m", [2])] rfl).2.1,
   (create_name_unique freshConn "X" [("l", [1])] [("m", [2])] rfl).2.2⟩

/-- C2.  Cascade deletion fails on the code: create the secret `"github"`
(id 1) with one field, delete id 1 — the parent row is gone, yet the field row
referencing id 1 is still in `secret_fields`, because the connection never
enables sqlite foreign-key enforcement, so the declared `ON DELETE CASCADE`
does not fire.  The claim requires zero remaining field rows. -/
theorem delete_leaves_orphan_fields :
    (create_secret freshConn "github" [("user", [97])] none).1 = CreateOutcome.created ∧
    (fieldsReferencing (create_secret freshConn "github" [("user", [97])] none).2.pending 1).length
      = 1 ∧
    get_secret_by_id (delete_secret (create_secret freshConn "github" [("user", [97])] none).2 1) 1
      = none ∧
    fieldsReferencing
        (delete_secret (create_secret freshConn "github" [("user", [97])] none).2 1).pending 1
      = [⟨1, "user", [97], 1⟩] ∧
    fieldsReferencing
        (delete_secret (create_secret freshConn "github" [("user", [97])] none).2 1).committed 1
      = [⟨1, "user", [97], 1⟩] := by
  decide

/-- C3.  Atomicity of create fails on the code: creating `"x"` with two fields
where the `INSERT` of the second field raises leaves the parent row `"x"` and
the first field row in the shared connection's open transaction — observable
to every reader of the singleton connection — because `create_secret` installs
no rollback.  The claim requires that nothing of the secret be observable. -/
theorem create_partial_failure_observable :
    (create_secret freshConn "x" [("l1", [1]), ("l2", [2])] (some 1)).1
      = CreateOutcome.raised ∧
    get_secret_by_id (create_secret freshConn "x" [("l1", [1]), ("l2", [2])] (some 1)).2 1
      = some (1, "x") ∧
    countName (create_secret freshConn "x" [("l1", [1]), ("l2", [2])] (some 1)).2.pending "x"
      = 1 ∧
    fieldsReferencing
        (create_secret freshConn "x" [("l1", [1]), ("l2", [2])] (some 1)).2.pending 1
      = [⟨1, "l1", [1], 1⟩] ∧
    countName
        ((delete_secret (create_secret freshConn "x" [("l1", [1]), ("l2", [2])] (some 1)).2
          999).committed) "x"
      = 1 := by
  decide

/-- C8.  Master-key single establishment: from a state with no master
password, `establish(P1)` answers 201; a subsequent `establish(P2)` answers
400 (the AlreadySet outcome) with the stored verifier unchanged; thereafter
`verify(P1)` is true and `verify(P2)` is false (given the two passwords hash
differently). -/
theorem master_single_establishment (p1 p2 : String) (st0 : MasterState)
    (h0 : st0.file = none) (hne : hash_password p1 ≠ hash_password p2) :
    (set_master_password st0 (some (JVal.jstr p1))).1 = 201 ∧
    set_master_password (set_master_password st0 (some (JVal.jstr p1))).2 (some (JVal.jstr p2))
      = (400, (set_master_password st0 (some (JVal.jstr p1))).2) ∧
    compare_hash_password (set_master_password st0 (some (JVal.jstr p1))).2 p1 = true ∧
    compare_hash_password (set_master_password st0 (some (JVal.jstr p1))).2 p2 = false := by
  refine ⟨?_, ?_, ?_, ?_⟩
  · simp [set_master_password, check_exist_master_password, h0]
  · simp [set_master_password, check_exist_master_password, h0]
  · simp [set_master_password, check_exist_master_password, h0, compare_hash_password]
  · simp [set_master_password, check_exist_master_password, h0, compare_hash_password, hne]

/-- C8 witness: the establishment theorem at the concrete passwords `"a"` and
`"b"`, whose SHA-256 based verifiers are computed and compared concretely. -/
theorem master_single_establishment_witness :
    (MasterState.mk none).file = none ∧
    hash_password "a" ≠ hash_password "b" ∧
    (set_master_password (MasterState.mk none) (some (JVal.jstr "a"))).1 = 201 ∧
    compare_hash_password
      (set_master_password (MasterState.mk none) (some (JVal.jstr "a"))).2 "b" = false :=
  ⟨rfl, by decide,
   (master_single_establishment "a" "b" (MasterState.mk none) rfl (by decide)).1,
   (master_single_establishment "a" "b" (MasterState.mk none) rfl (by decide)).2.2.2⟩

/-- C1.  The end-to-end read scenario fails on the code: once a master
password exists, `POST /get_secret` answers 400 BAD_REQUEST for EVERY
well-typed request — any integer id and any string password, in particular the
claim's correct password `"correct-horse"` and its wrong password `"wrong"` —
because the route's `isinstance` checks are inverted (`or
isinstance(request.json['id'], int)` aborts precisely when the id IS an
integer, and likewise for the string password).  The claim requires the
decrypted field list for the correct password and `WrongPassword` for the
wrong one. -/
theorem get_secret_rejects_well_typed (ms : MasterState) (c : DBConn) (i : Int) (pw : String)
    (hms : check_exist_master_password ms = true) :
    get_secret_route ms c ⟨some (JVal.jint i), some (JVal.jstr pw)⟩ = 400 := by
  simp [get_secret_route, hms, JVal.isInt]

/-- C1 witness: the rejection theorem at the claim's own scenario — id 1,
passwords `"correct-horse"` and `"wrong"`, master password established. -/
theorem get_secret_rejects_well_typed_witness :
    check_exist_master_password (MasterState.mk (some (hash_password "correct-horse"))) = true ∧
    get_secret_route (MasterState.mk (some (hash_password "correct-horse"))) freshConn
      ⟨some (JVal.jint 1), some (JVal.jstr "correct-horse")⟩ = 400 ∧
    get_secret_route (MasterState.mk (some (hash_password "correct-horse"))) freshConn
      ⟨some (JVal.jint 1), some (JVal.jstr "wrong")⟩ = 400 :=
  ⟨rfl,
   get_secret_rejects_well_typed (MasterState.mk (some (hash_password "correct-horse")))
     freshConn 1 "correct-horse" rfl,
   get_secret_rejects_well_typed (MasterState.mk (some (hash_password "correct-horse")))
     freshConn 1 "wrong" rfl⟩

/-- C9.  Deleting a nonexistent secret does not answer NotFound on the code:
`DELETE /delete_secret` has the same inverted `isinstance` checks as
`/get_secret`, so every well-typed request — any integer id, present in the
store or not, and any string password — is answered 400 BAD_REQUEST (with the
store unchanged), never reaching the route's 404 branch.  The claim requires
`NotFound` for an absent id. -/
theorem delete_secret_rejects_well_typed (ms : MasterState) (c : DBConn) (i : Int) (pw : String)
    (hms : check_exist_master_password ms = true) :
    delete_secret_route ms c ⟨some (JVal.jint i), some (JVal.jstr pw)⟩ = (400, c) := by
  simp [delete_secret_route, hms, JVal.isInt]

/-- C9 witness: the rejection theorem at a concrete absent id (999 in a fresh
store) with the correct master password. -/
theorem delete_secret_rejects_well_typed_witness :
    check_exist_master_password (MasterState.mk (some (hash_password "pw"))) = true ∧
    get_secret_by_id freshConn 999 = none ∧
    delete_secret_route (MasterState.mk (some (hash_password "pw"))) freshConn
      ⟨some (JVal.jint 999), some (JVal.jstr "pw")⟩ = (400, freshConn) :=
  ⟨rfl, rfl,
   delete_secret_rejects_well_typed (MasterState.mk (some (hash_password "pw"))) freshConn
     999 "pw" rfl⟩

/-- C4 counterexample: the claim that the verifier is computed entirely
in-process is false — `hash_password` performs an `os.system` shell invocation
of the external helper, after writing the plaintext password to a temp file. -/
theorem hash_password_shells_out :
    (hash_password_effects "correct-horse").any Eff.isSystemCall = true ∧
    (hash_password_effects "correct-horse").any Eff.isFileWrite = true := by
  decide

/-- C4 (amended).  The master-password verifier is computed by writing the
password to `input.txt`, invoking the out-of-process helper
`password_to_hash.exe` through `os.system` with shell redirection, and reading
`output.txt` back; the helper computes a single (non-iterated) SHA-256 of the
hard-coded salt `b"fake_salt_for_hash"` concatenated with the password. -/
theorem hash_password_mechanism (p : String) :
    hash_password_effects p =
      [Eff.writeF "input.txt" p,
       Eff.system "password_to_hash.exe < input.txt > output.txt",
       Eff.readF "output.txt",
       Eff.removeF "input.txt",
       Eff.removeF "output.txt"] ∧
    hash_password p = bytesToHex (sha256 (fake_salt_for_hash ++ utf8Encode p)) ++ "\n" :=
  ⟨rfl, rfl⟩

/-- C10.  The master-password verifier is a deterministic function of the
password alone: `get_hash` always uses the hard-coded salt
`b"fake_salt_for_hash"`, so it equals the fixed formula
`SHA256(fake_salt_for_hash || utf8(password))` — any two computations, in any
vault instance, agree. -/
theorem get_hash_deterministic (p : String) :
    get_hash p = bytesToHex (sha256 (fake_salt_for_hash ++ utf8Encode p)) ∧
    hash_with_salt_sha256 p fake_salt_for_hash = (fake_salt_for_hash, get_hash p) :=
  ⟨rfl, rfl⟩

end SecretManager
